import Mathlib

/-!
Verification of the challenge/ranking rules engine of the padel-ladder
backend (`routers/desafios.py`).  The Python router is shallowly embedded:

* `Pareja` / `Desafio` mirror the SQLAlchemy rows used by the router
  (`models.py`), keeping the Spanish field names of the source.
* Dates are modelled as proleptic-Gregorian ordinals shifted so that day 0
  is a Monday; `d.emod 7` is then exactly Python's `date.weekday()`
  (Monday = 0).  Timestamps relevant to the forfeit rule are modelled at
  day granularity, so `created_at <= now - 3` embeds
  `created_at <= datetime.utcnow() - timedelta(days=3)`.
* `HTTPException` raises become `Except Err` values; each constructor of
  `Err` corresponds to one `detail` message family of the source.
* The mutable session (`db.query ... / db.commit`) becomes explicit state
  passing over `DB`, a pair of row lists; in-place row mutation becomes
  id-directed replacement in those lists.
-/

namespace RankingPadel

/-- One row of the `parejas` table, restricted to the columns the rules
engine reads.  `genero` is read through `getattr(_, "genero", None)` in the
source, hence `Option String`. -/
structure Pareja where
  id : Nat
  jugador1_id : Nat
  jugador2_id : Nat
  grupo : String
  posicion_actual : Option Nat
  activo : Bool
  genero : Option String
deriving DecidableEq

/-- Time of day, as parsed from the `"HH:MM[:SS]"` payload strings. -/
structure Hora where
  hour : Nat
  minute : Nat
  second : Nat
deriving DecidableEq

/-- One row of the `desafios` table, restricted to the columns the rules
engine reads or writes. -/
structure Desafio where
  id : Nat
  retadora_pareja_id : Nat
  retada_pareja_id : Nat
  ganador_pareja_id : Option Nat
  estado : String
  fecha : Int
  hora : Hora
  created_at : Int
  fecha_jugado : Option Int
  pos_retadora_old : Option Nat
  pos_retada_old : Option Nat
  swap_aplicado : Bool
  ranking_aplicado : Bool
  set1_retador : Option Int
  set1_desafiado : Option Int
  set2_retador : Option Int
  set2_desafiado : Option Int
  set3_retador : Option Int
  set3_desafiado : Option Int
deriving DecidableEq

/-- Payload of `POST /desafios/{id}/resultado` (`ResultadoSets`). -/
structure ResultadoSets where
  fecha_jugado : Option Int
  set1_retador : Int
  set1_desafiado : Int
  set2_retador : Int
  set2_desafiado : Int
  set3_retador : Option Int
  set3_desafiado : Option Int
deriving DecidableEq

/-- Error outcomes; one constructor per `HTTPException` detail family of the
router, named after the spec's error taxonomy. -/
inductive Err where
  | CategoryMismatch
  | WeeklyLimitExceeded
  | PositionOrderViolation
  | MaxSlotGapExceeded
  | InterdivisionNotAllowed
  | InvalidScore
  | MissingDecidingSet
  | NotFound
  | AlreadyResolved
  | AlreadyRejected
  | OnlyFromPending
  | NotAParticipant
  | InvalidTimeSlot
  | SelfChallenge
  | NoActivePair
deriving DecidableEq

/-- Python `str.capitalize()`: first character upper-cased, the rest
lower-cased. -/
def pyCapitalize (s : String) : String :=
  match s.data with
  | [] => ""
  | c :: cs => String.mk (c.toUpper :: cs.map Char.toLower)

/-- Python `str.upper()` (over the characters of the string). -/
def pyUpper (s : String) : String :=
  String.mk (s.data.map Char.toUpper)

/-- Drop leading whitespace characters. -/
def dropLeadingWs : List Char → List Char
  | [] => []
  | c :: cs => if c.isWhitespace then dropLeadingWs cs else c :: cs

/-- Python `str.strip()` with no argument: remove leading and trailing
whitespace. -/
def pyStrip (s : String) : String :=
  String.mk ((dropLeadingWs (dropLeadingWs s.data).reverse).reverse)

/-- Maximal runs of non-whitespace characters. -/
def wsTokens : List Char → List (List Char)
  | [] => []
  | c :: cs =>
    if c.isWhitespace then wsTokens cs
    else
      match wsTokens cs with
      | [] => [[c]]
      | t :: ts =>
        match cs with
        | [] => [[c]]
        | c2 :: _ => if c2.isWhitespace then [c] :: (t :: ts) else (c :: t) :: ts

/-- Python `str.split()` with no argument: split on whitespace runs,
dropping empty tokens. -/
def pySplit (s : String) : List String :=
  (wsTokens s.data).map String.mk

/-- `_categoria_from_grupo`: first whitespace token of the group label,
capitalized ("Femenino A" ↦ "Femenino"). -/
def categoria_from_grupo (grupo : String) : String :=
  let g := pyStrip grupo
  if g = "" then ""
  else
    match pySplit g with
    | [] => ""
    | t :: _ => pyCapitalize t

/-- `_division_from_grupo`: second whitespace token, upper-cased
("Femenino A" ↦ "A"); empty when the label has fewer than two tokens. -/
def division_from_grupo (grupo : String) : String :=
  let parts := pySplit (pyStrip grupo)
  match parts with
  | _ :: d :: _ => pyUpper d
  | _ => ""

/-- `(genero or "").strip() or None` of the source. -/
def normGenero (g : Option String) : Option String :=
  match g with
  | none => none
  | some s => if pyStrip s = "" then none else some (pyStrip s)

/-- `_same_category`: compare `genero` when both rows carry it, otherwise
fall back to the group-label category of each pair. -/
def same_category (retadora retada : Pareja) : Bool :=
  match normGenero retadora.genero, normGenero retada.genero with
  | some gr, some gd => gr == gd
  | _, _ =>
    let cat_r := categoria_from_grupo retadora.grupo
    let cat_d := categoria_from_grupo retada.grupo
    cat_r ≠ "" && cat_d ≠ "" && cat_r == cat_d

/-- `_semana_range`: Monday-to-Sunday week containing `fecha`, returned as
(start, inclusive end). -/
def semana_range (fecha : Int) : Int × Int :=
  let start := fecha - fecha % 7
  (start, start + 6)

/-- The filter applied by `_count_partidos_semana`'s query: state in
{Pendiente, Aceptado, Jugado}, match date inside the week of `fecha`, the
pair participates, and (for reschedules) the row is not the excluded one. -/
def cuenta_en_semana (pareja_id : Nat) (fecha : Int)
    (exclude_desafio_id : Option Nat) (d : Desafio) : Bool :=
  (d.estado == "Pendiente" || d.estado == "Aceptado" || d.estado == "Jugado")
  && decide ((semana_range fecha).1 ≤ d.fecha)
  && decide (d.fecha ≤ (semana_range fecha).2)
  && (d.retadora_pareja_id == pareja_id || d.retada_pareja_id == pareja_id)
  && (match exclude_desafio_id with
      | none => true
      | some i => d.id != i)

/-- `_count_partidos_semana`. -/
def count_partidos_semana (desafios : List Desafio) (pareja_id : Nat)
    (fecha : Int) (exclude_desafio_id : Option Nat) : Nat :=
  (desafios.filter (cuenta_en_semana pareja_id fecha exclude_desafio_id)).length

/-- Maximum `posicion_actual` over active pairs of a group: the
`order_by(desc).first()` query inside `_interdivision_allowed`. -/
def max_pos_in_grupo (parejas : List Pareja) (grupo : String) : Option Nat :=
  (parejas.filterMap (fun p =>
      if p.activo && p.grupo == grupo then p.posicion_actual else none)).foldl
    (fun acc n =>
      match acc with
      | none => some n
      | some m => some (max m n)) none

/-- `_interdivision_allowed`. -/
def interdivision_allowed (parejas : List Pareja)
    (retadora retada : Pareja) : Bool :=
  let div_r := division_from_grupo retadora.grupo
  let div_d := division_from_grupo retada.grupo
  if div_r = "" || div_d = "" then false
  else if ¬ (div_r = "B" ∧ div_d = "A") then false
  else
    match retadora.posicion_actual, retada.posicion_actual with
    | some pr, some pd =>
      if pr = 1 ∧ pd = 18 then true
      else if ¬ (pr = 1 ∨ pr = 2 ∨ pr = 3) then false
      else
        let categoria := categoria_from_grupo retadora.grupo
        let grupo_A := categoria ++ " A"
        match max_pos_in_grupo parejas grupo_A with
        | none => false
        | some last =>
          pd = last || pd = max 1 (last - 1) || pd = max 1 (last - 2)
    | _, _ => false

/-- `_validate_desafio_rules`: category, weekly caps, then same-division
position rules or interdivision rule. -/
def validate_desafio_rules (parejas : List Pareja) (desafios : List Desafio)
    (retadora retada : Pareja) (fecha : Int)
    (exclude_desafio_id : Option Nat) : Except Err Unit :=
  if same_category retadora retada = false then .error .CategoryMismatch
  else if 2 ≤ count_partidos_semana desafios retadora.id fecha exclude_desafio_id then
    .error .WeeklyLimitExceeded
  else if 2 ≤ count_partidos_semana desafios retada.id fecha exclude_desafio_id then
    .error .WeeklyLimitExceeded
  else if retadora.grupo = retada.grupo then
    match retadora.posicion_actual, retada.posicion_actual with
    | some pr, some pd =>
      if pr ≤ pd then .error .PositionOrderViolation
      else if 3 < pr - pd then .error .MaxSlotGapExceeded
      else .ok ()
    | _, _ => .ok ()
  else if interdivision_allowed parejas retadora retada = false then
    .error .InterdivisionNotAllowed
  else .ok ()

/-- `_gana_retador`: set-score adjudication. -/
def gana_retador (data : ResultadoSets) : Except Err Bool :=
  if data.set1_retador = data.set1_desafiado then .error .InvalidScore
  else if data.set2_retador = data.set2_desafiado then .error .InvalidScore
  else
    let sr0 : Nat := (if data.set1_desafiado < data.set1_retador then 1 else 0)
      + (if data.set2_desafiado < data.set2_retador then 1 else 0)
    let sd0 : Nat := (if data.set1_desafiado < data.set1_retador then 0 else 1)
      + (if data.set2_desafiado < data.set2_retador then 0 else 1)
    if sr0 = sd0 then
      match data.set3_retador, data.set3_desafiado with
      | some s3r, some s3d =>
        if s3r = s3d then .error .InvalidScore
        else if s3d < s3r then .ok (decide (sd0 < sr0 + 1))
        else .ok (decide (sd0 + 1 < sr0))
      | _, _ => .error .MissingDecidingSet
    else .ok (decide (sd0 < sr0))

/-- `_ensure_hora_redonda`: only exact on-the-hour times. -/
def hora_redonda (t : Hora) : Bool :=
  t.minute == 0 && t.second == 0

/-- The persistent state the router reads and writes: the two tables the
rules engine touches. -/
structure DB where
  parejas : List Pareja
  desafios : List Desafio
deriving DecidableEq

/-- `db.query(Pareja).filter(Pareja.id == i).first()`. -/
def findPareja (parejas : List Pareja) (i : Nat) : Option Pareja :=
  parejas.find? (fun p => p.id == i)

/-- `db.query(Desafio).filter(Desafio.id == i).first()`. -/
def findDesafio (desafios : List Desafio) (i : Nat) : Option Desafio :=
  desafios.find? (fun d => d.id == i)

/-- In-place mutation of the challenge row carrying `d'.id`. -/
def updateDesafio (desafios : List Desafio) (d' : Desafio) : List Desafio :=
  desafios.map (fun x => if x.id == d'.id then d' else x)

/-- In-place mutation of the two pair rows carrying `a.id` and `b.id`. -/
def updateParejas2 (parejas : List Pareja) (a b : Pareja) : List Pareja :=
  parejas.map (fun p => if p.id == a.id then a else if p.id == b.id then b else p)

/-- Membership test of the acting player among the four participants
(the guard shared by `reprogramar_desafio` and `cargar_resultado`). -/
def es_participante (jugador_id : Nat) (retadora retada : Pareja) : Bool :=
  jugador_id == retadora.jugador1_id || jugador_id == retadora.jugador2_id
  || jugador_id == retada.jugador1_id || jugador_id == retada.jugador2_id

/-- The filter of `_apply_forfeit_if_expired`'s query:
`estado == "Pendiente" and created_at <= now - timedelta(days=3)`. -/
def isExpiredPending (now : Int) (d : Desafio) : Bool :=
  d.estado == "Pendiente" && decide (d.created_at ≤ now - 3)

/-- Body of the loop of `_apply_forfeit_if_expired`, for one expired
challenge `d`: skip when a pair is missing or categories mismatch,
otherwise resolve the challenge for the challenger and swap. -/
def forfeit_step (today : Int) (st : DB × Nat) (d : Desafio) : DB × Nat :=
  match findPareja st.1.parejas d.retadora_pareja_id,
        findPareja st.1.parejas d.retada_pareja_id with
  | some retadora, some retada =>
    if same_category retadora retada = false then st
    else
      let d1 : Desafio :=
        { d with
          pos_retadora_old := retadora.posicion_actual
          pos_retada_old := retada.posicion_actual
          estado := "Jugado"
          ganador_pareja_id := some retadora.id
          fecha_jugado := some today }
      match retadora.posicion_actual, retada.posicion_actual with
      | some pr, some pd =>
        if retadora.grupo ≠ retada.grupo
            ∧ interdivision_allowed st.1.parejas retadora retada = true then
          let retadora' := { retadora with grupo := retada.grupo, posicion_actual := some pd }
          let retada' := { retada with grupo := retadora.grupo, posicion_actual := some pr }
          (⟨updateParejas2 st.1.parejas retadora' retada',
            updateDesafio st.1.desafios
              { d1 with swap_aplicado := true, ranking_aplicado := true }⟩,
           st.2 + 1)
        else
          let retadora' := { retadora with posicion_actual := some pd }
          let retada' := { retada with posicion_actual := some pr }
          (⟨updateParejas2 st.1.parejas retadora' retada',
            updateDesafio st.1.desafios
              { d1 with swap_aplicado := true, ranking_aplicado := true }⟩,
           st.2 + 1)
      | _, _ =>
        (⟨st.1.parejas, updateDesafio st.1.desafios d1⟩, st.2 + 1)
  | _, _ => st

/-- `_apply_forfeit_if_expired`: resolve every Pendiente challenge whose
creation timestamp is at least 3 days old, returning the new state and the
number of challenges resolved. -/
def apply_forfeit_if_expired (now today : Int) (db : DB) : DB × Nat :=
  (db.desafios.filter (isExpiredPending now)).foldl (forfeit_step today) (db, 0)

/-- Body of `POST /desafios/{id}/aceptar` after the forfeit sweep. -/
def aceptar_core (db : DB) (desafio_id : Nat) : DB × Except Err Desafio :=
  match findDesafio db.desafios desafio_id with
  | none => (db, .error .NotFound)
  | some d =>
    if d.estado = "Jugado" then (db, .error .AlreadyResolved)
    else if d.estado ≠ "Pendiente" then (db, .error .OnlyFromPending)
    else
      let d' := { d with estado := "Aceptado" }
      (⟨db.parejas, updateDesafio db.desafios d'⟩, .ok d')

/-- Body of `POST /desafios/{id}/rechazar` after the forfeit sweep. -/
def rechazar_core (db : DB) (desafio_id : Nat) : DB × Except Err Desafio :=
  match findDesafio db.desafios desafio_id with
  | none => (db, .error .NotFound)
  | some d =>
    if d.estado = "Jugado" then (db, .error .AlreadyResolved)
    else if d.estado = "Rechazado" then (db, .error .AlreadyRejected)
    else if d.estado ≠ "Pendiente" then (db, .error .OnlyFromPending)
    else
      let d' := { d with estado := "Rechazado" }
      (⟨db.parejas, updateDesafio db.desafios d'⟩, .ok d')

/-- Body of `PATCH /desafios/{id}/reprogramar` after the forfeit sweep. -/
def reprogramar_core (db : DB) (desafio_id jugador_id : Nat)
    (fecha : Int) (hora : Hora) : DB × Except Err Desafio :=
  match findDesafio db.desafios desafio_id with
  | none => (db, .error .NotFound)
  | some d =>
    if d.estado ≠ "Pendiente" then (db, .error .OnlyFromPending)
    else
      match findPareja db.parejas d.retadora_pareja_id,
            findPareja db.parejas d.retada_pareja_id with
      | some retadora, some retada =>
        if es_participante jugador_id retadora retada = false then
          (db, .error .NotAParticipant)
        else if hora_redonda hora = false then (db, .error .InvalidTimeSlot)
        else
          match validate_desafio_rules db.parejas db.desafios retadora retada
              fecha (some d.id) with
          | .error e => (db, .error e)
          | .ok _ =>
            let d' := { d with fecha := fecha, hora := hora }
            (⟨db.parejas, updateDesafio db.desafios d'⟩, .ok d')
      | _, _ => (db, .error .NotFound)

/-- Body of `POST /desafios/{id}/resultado` after the forfeit sweep. -/
def cargar_resultado_core (db : DB) (desafio_id jugador_id : Nat)
    (data : ResultadoSets) (today : Int) : DB × Except Err Desafio :=
  match findDesafio db.desafios desafio_id with
  | none => (db, .error .NotFound)
  | some d =>
    if d.estado = "Jugado" then (db, .error .AlreadyResolved)
    else
      match findPareja db.parejas d.retadora_pareja_id,
            findPareja db.parejas d.retada_pareja_id with
      | some retadora, some retada =>
        if same_category retadora retada = false then
          (db, .error .CategoryMismatch)
        else if retadora.grupo ≠ retada.grupo
            ∧ interdivision_allowed db.parejas retadora retada = false then
          (db, .error .InterdivisionNotAllowed)
        else if es_participante jugador_id retadora retada = false then
          (db, .error .NotAParticipant)
        else
          match gana_retador data with
          | .error e => (db, .error e)
          | .ok retador_gana =>
            let ganador_id := if retador_gana then retadora.id else retada.id
            let d1 : Desafio :=
              { d with
                pos_retadora_old := retadora.posicion_actual
                pos_retada_old := retada.posicion_actual
                estado := "Jugado"
                ganador_pareja_id := some ganador_id
                set1_retador := some data.set1_retador
                set1_desafiado := some data.set1_desafiado
                set2_retador := some data.set2_retador
                set2_desafiado := some data.set2_desafiado
                set3_retador := data.set3_retador
                set3_desafiado := data.set3_desafiado
                fecha_jugado := some (data.fecha_jugado.getD today) }
            if retador_gana ∧ d.swap_aplicado = false then
              match retadora.posicion_actual, retada.posicion_actual with
              | some pr, some pd =>
                if retadora.grupo ≠ retada.grupo
                    ∧ interdivision_allowed db.parejas retadora retada = true then
                  let retadora' :=
                    { retadora with grupo := retada.grupo, posicion_actual := some pd }
                  let retada' :=
                    { retada with grupo := retadora.grupo, posicion_actual := some pr }
                  let d2 := { d1 with swap_aplicado := true, ranking_aplicado := true }
                  (⟨updateParejas2 db.parejas retadora' retada',
                    updateDesafio db.desafios d2⟩, .ok d2)
                else
                  let retadora' := { retadora with posicion_actual := some pd }
                  let retada' := { retada with posicion_actual := some pr }
                  let d2 := { d1 with swap_aplicado := true, ranking_aplicado := true }
                  (⟨updateParejas2 db.parejas retadora' retada',
                    updateDesafio db.desafios d2⟩, .ok d2)
              | _, _ =>
                let d2 := { d1 with swap_aplicado := false, ranking_aplicado := true }
                (⟨db.parejas, updateDesafio db.desafios d2⟩, .ok d2)
            else
              let d2 := { d1 with swap_aplicado := false, ranking_aplicado := true }
              (⟨db.parejas, updateDesafio db.desafios d2⟩, .ok d2)
      | _, _ => (db, .error .NotFound)

/-- `POST /desafios/{id}/aceptar`: forfeit sweep, then the accept body. -/
def aceptar_desafio (now today : Int) (db : DB) (desafio_id : Nat) :
    DB × Except Err Desafio :=
  aceptar_core (apply_forfeit_if_expired now today db).1 desafio_id

/-- `POST /desafios/{id}/rechazar`: forfeit sweep, then the reject body. -/
def rechazar_desafio (now today : Int) (db : DB) (desafio_id : Nat) :
    DB × Except Err Desafio :=
  rechazar_core (apply_forfeit_if_expired now today db).1 desafio_id

/-- `PATCH /desafios/{id}/reprogramar`: forfeit sweep, then the body. -/
def reprogramar_desafio (now today : Int) (db : DB) (desafio_id jugador_id : Nat)
    (fecha : Int) (hora : Hora) : DB × Except Err Desafio :=
  reprogramar_core (apply_forfeit_if_expired now today db).1 desafio_id jugador_id fecha hora

/-- `POST /desafios/{id}/resultado`: forfeit sweep, then the body. -/
def cargar_resultado (now today : Int) (db : DB) (desafio_id jugador_id : Nat)
    (data : ResultadoSets) : DB × Except Err Desafio :=
  cargar_resultado_core (apply_forfeit_if_expired now today db).1 desafio_id jugador_id data today

/-- The exposed state-changing operations of the challenge lifecycle. -/
inductive Op where
  | aceptar (desafio_id : Nat)
  | rechazar (desafio_id : Nat)
  | reprogramar (desafio_id jugador_id : Nat) (fecha : Int) (hora : Hora)
  | resultado (desafio_id jugador_id : Nat) (data : ResultadoSets)
  | sweep
deriving DecidableEq

/-- Resulting database state of one exposed operation (whether the request
succeeded or failed; the forfeit sweep at the head of each endpoint commits
regardless). -/
def runOp (now today : Int) (db : DB) : Op → DB
  | .aceptar i => (aceptar_desafio now today db i).1
  | .rechazar i => (rechazar_desafio now today db i).1
  | .reprogramar i j f h => (reprogramar_desafio now today db i j f h).1
  | .resultado i j data => (cargar_resultado now today db i j data).1
  | .sweep => (apply_forfeit_if_expired now today db).1

/-- `if b then 1 else 0`, for counting won sets. -/
def cnt (b : Bool) : Nat := if b then 1 else 0

/-- Modelled from the spec (§4.1 wording of the claim): set 1 and set 2 must
not be tied; a set is won by the higher number; when the first two sets are
split the third is mandatory and must not be tied; the winner is whoever
wins the majority of the sets actually played (2 of 2, or 2 of 3). -/
def adjudicator_spec (data : ResultadoSets) : Except Err Bool :=
  if data.set1_retador = data.set1_desafiado ∨ data.set2_retador = data.set2_desafiado
  then .error .InvalidScore
  else
    let w1 : Bool := decide (data.set1_desafiado < data.set1_retador)
    let w2 : Bool := decide (data.set2_desafiado < data.set2_retador)
    if w1 ≠ w2 then
      match data.set3_retador, data.set3_desafiado with
      | some a, some b =>
        if a = b then .error .InvalidScore
        else
          let ret := cnt w1 + cnt w2 + cnt (decide (b < a))
          .ok (decide (3 - ret < ret))
      | _, _ => .error .MissingDecidingSet
    else
      let ret := cnt w1 + cnt w2
      .ok (decide (2 - ret < ret))

/-- Modelled from the spec (the claim's wording for C3): interdivision
eligibility with the special case pairing B's rank 1 with A's last place,
the last place being computed as the maximum active position of the
"&lt;category&gt; A" group. -/
def interdivision_spec (parejas : List Pareja) (retadora retada : Pareja) : Bool :=
  decide (division_from_grupo retadora.grupo = "B")
  && decide (division_from_grupo retada.grupo = "A")
  && (match retadora.posicion_actual, retada.posicion_actual,
        max_pos_in_grupo parejas (categoria_from_grupo retadora.grupo ++ " A") with
      | some pr, some pd, some last =>
        (decide (pr = 1) && decide (pd = last))
        || ((decide (pr = 1) || decide (pr = 2) || decide (pr = 3))
            && (decide (pd = last) || decide (pd = max 1 (last - 1))
                || decide (pd = max 1 (last - 2))))
      | _, _, _ => false)

/-- Closed form of `interdivision_allowed` as the code actually behaves:
the special case is the hardcoded pair of positions (1, 18), checked before
the top-3 / bottom-3 window. -/
def interdivision_char (parejas : List Pareja) (retadora retada : Pareja) : Bool :=
  decide (division_from_grupo retadora.grupo = "B")
  && decide (division_from_grupo retada.grupo = "A")
  && (match retadora.posicion_actual, retada.posicion_actual with
      | some pr, some pd =>
        (decide (pr = 1) && decide (pd = 18))
        || ((decide (pr = 1) || decide (pr = 2) || decide (pr = 3))
            && (match max_pos_in_grupo parejas
                  (categoria_from_grupo retadora.grupo ++ " A") with
                | some last =>
                  decide (pd = last) || decide (pd = max 1 (last - 1))
                    || decide (pd = max 1 (last - 2))
                | none => false))
      | _, _ => false)

/-! Concrete fixtures used by witnesses and counterexamples. -/

/-- A division-B pair at rank 1. -/
def pB1 : Pareja := ⟨1, 11, 12, "Masculino B", some 1, true, none⟩
/-- A division-A pair at position 10. -/
def pA10 : Pareja := ⟨2, 21, 22, "Masculino A", some 10, true, none⟩
/-- A division-A pair at position 18. -/
def pA18 : Pareja := ⟨3, 31, 32, "Masculino A", some 18, true, none⟩
/-- A division-A pair at position 30 (the last place of its group). -/
def pA30 : Pareja := ⟨4, 41, 42, "Masculino A", some 30, true, none⟩
/-- A division-B pair at rank 5 (outside the top 3). -/
def pB5 : Pareja := ⟨5, 51, 52, "Masculino B", some 5, true, none⟩
/-- A division-A pair at position 4. -/
def pM4 : Pareja := ⟨6, 61, 62, "Masculino A", some 4, true, none⟩
/-- A division-A pair at position 5, same group as `pM4`. -/
def pM5 : Pareja := ⟨7, 71, 72, "Masculino A", some 5, true, none⟩
/-- A division-B pair with unknown position. -/
def pNone : Pareja := ⟨8, 81, 82, "Masculino B", none, true, none⟩

/-- An expired Pendiente cross-division challenge (`pB5` challenges `pA10`)
that is not promotion-eligible. -/
def cxC1 : Desafio :=
  ⟨100, 5, 2, none, "Pendiente", 0, ⟨15, 0, 0⟩, 0, none, none, none,
   false, false, none, none, none, none, none, none⟩
/-- State holding only `cxC1`. -/
def dbC1 : DB := ⟨[pB5, pA10], [cxC1]⟩

/-- An expired Pendiente same-group challenge (`pM5` challenges `pM4`). -/
def cxForfeitSame : Desafio :=
  ⟨101, 7, 6, none, "Pendiente", 0, ⟨15, 0, 0⟩, 0, none, none, none,
   false, false, none, none, none, none, none, none⟩
/-- State holding only `cxForfeitSame`. -/
def dbForfeitSame : DB := ⟨[pM4, pM5], [cxForfeitSame]⟩

/-- A Rechazado challenge between `pM5` (challenger) and `pM4`. -/
def cxC2 : Desafio :=
  ⟨200, 7, 6, none, "Rechazado", 0, ⟨15, 0, 0⟩, 100, none, none, none,
   false, false, none, none, none, none, none, none⟩
/-- State holding only `cxC2`. -/
def dbC2 : DB := ⟨[pM4, pM5], [cxC2]⟩
/-- A straight-sets 6-3 6-4 win for the challenger. -/
def resC2 : ResultadoSets := ⟨none, 6, 3, 6, 4, none, none⟩

/-- A resolved Jugado challenge with both flags set. -/
def cxJugado : Desafio :=
  ⟨102, 7, 6, some 7, "Jugado", 0, ⟨15, 0, 0⟩, 100, some 50, some 5, some 4,
   true, true, some 6, some 3, some 6, some 4, none, none⟩
/-- State holding only `cxJugado`. -/
def dbJugado : DB := ⟨[pM4, pM5], [cxJugado]⟩

/-- An Aceptado challenge between `pM5` (challenger) and `pM4`. -/
def cxAcc : Desafio :=
  ⟨103, 7, 6, none, "Aceptado", 0, ⟨15, 0, 0⟩, 100, none, none, none,
   false, false, none, none, none, none, none, none⟩
/-- State holding only `cxAcc`. -/
def dbAcc : DB := ⟨[pM4, pM5], [cxAcc]⟩
/-- A 3-6 2-6 loss for the challenger. -/
def resLoss : ResultadoSets := ⟨none, 3, 6, 2, 6, none, none⟩
/-- A split-sets win for the challenger with an explicit played date. -/
def resWin : ResultadoSets := ⟨some 60, 6, 3, 4, 6, some 10, some 8⟩

/-- An expired Pendiente challenge whose challenger has no position. -/
def cxC9 : Desafio :=
  ⟨104, 8, 6, none, "Pendiente", 0, ⟨15, 0, 0⟩, 0, none, none, none,
   false, false, none, none, none, none, none, none⟩
/-- State holding only `cxC9`. -/
def dbC9 : DB := ⟨[pM4, pNone], [cxC9]⟩

/-- The pair table of the C3 counterexample: B's rank 1, an A pair at 18,
and an A pair at 30 (so A's last place is 30, not 18). -/
def parejasC3 : List Pareja := [pB1, pA18, pA30]

/-- Two week-2 challenges of pair `pM4` (days 0-6 form the week). -/
def cxSem1 : Desafio :=
  ⟨110, 6, 7, none, "Pendiente", 2, ⟨15, 0, 0⟩, 100, none, none, none,
   false, false, none, none, none, none, none, none⟩
/-- Second challenge of pair `pM4` in the same week, already played. -/
def cxSem2 : Desafio :=
  ⟨111, 6, 2, some 6, "Jugado", 4, ⟨15, 0, 0⟩, 100, some 4, some 4, some 10,
   false, true, some 6, some 3, some 6, some 4, none, none⟩
/-- The week fixture list. -/
def desafiosSem : List Desafio := [cxSem1, cxSem2]

/-- The stored row after submitting `resC2` on the Rechazado `cxC2`. -/
def cxC2done : Desafio :=
  ⟨200, 7, 6, some 7, "Jugado", 0, ⟨15, 0, 0⟩, 100, some 50, some 5, some 4,
   true, true, some 6, some 3, some 6, some 4, none, none⟩

/-- The stored row after the challenger loses `cxAcc` with `resLoss`. -/
def cxAccLoss : Desafio :=
  ⟨103, 7, 6, some 6, "Jugado", 0, ⟨15, 0, 0⟩, 100, some 50, some 5, some 4,
   false, true, some 3, some 6, some 2, some 6, none, none⟩

/-- The stored row after the challenger wins `cxAcc` with `resWin`. -/
def cxAccWin : Desafio :=
  ⟨103, 7, 6, some 7, "Jugado", 0, ⟨15, 0, 0⟩, 100, some 60, some 5, some 4,
   true, true, some 6, some 3, some 4, some 6, some 10, some 8⟩

/-- The state after the challenger wins `cxAcc` with `resWin`: positions 4
and 5 swapped. -/
def dbAccWin : DB :=
  ⟨[⟨6, 61, 62, "Masculino A", some 5, true, none⟩,
    ⟨7, 71, 72, "Masculino A", some 4, true, none⟩], [cxAccWin]⟩

/-- The state after the challenger loses `cxAcc` with `resLoss`: positions
unchanged. -/
def dbAccLoss : DB := ⟨[pM4, pM5], [cxAccLoss]⟩

/-- One cons step of `findDesafio`. -/
theorem findDesafio_cons (y : Desafio) (ys : List Desafio) (i : Nat) :
    findDesafio (y :: ys) i = if y.id = i then some y else findDesafio ys i := by
  by_cases h : y.id = i
  · rw [if_pos h]
    exact List.find?_cons_of_pos ys (by simp [h])
  · rw [if_neg h]
    exact List.find?_cons_of_neg ys (by simp [h])

/-- One cons step of `findPareja`. -/
theorem findPareja_cons (y : Pareja) (ys : List Pareja) (i : Nat) :
    findPareja (y :: ys) i = if y.id = i then some y else findPareja ys i := by
  by_cases h : y.id = i
  · rw [if_pos h]
    exact List.find?_cons_of_pos ys (by simp [h])
  · rw [if_neg h]
    exact List.find?_cons_of_neg ys (by simp [h])

/-- One cons step of `updateDesafio`. -/
theorem updateDesafio_cons (y : Desafio) (ys : List Desafio) (d' : Desafio) :
    updateDesafio (y :: ys) d'
      = (if y.id = d'.id then d' else y) :: updateDesafio ys d' := by
  by_cases h : y.id = d'.id <;> simp [updateDesafio, h]

/-- One cons step of `updateParejas2`. -/
theorem updateParejas2_cons (y : Pareja) (ys : List Pareja) (a b : Pareja) :
    updateParejas2 (y :: ys) a b
      = (if y.id = a.id then a else if y.id = b.id then b else y)
        :: updateParejas2 ys a b := by
  by_cases h1 : y.id = a.id <;> by_cases h2 : y.id = b.id
    <;> simp [updateParejas2, h1, h2]

/-- With pairwise-distinct ids, looking up a member's id finds that member. -/
theorem findDesafio_nodup_mem (l : List Desafio) (d : Desafio)
    (hnd : (l.map Desafio.id).Nodup) (hm : d ∈ l) :
    findDesafio l d.id = some d := by
  induction l with
  | nil => simp at hm
  | cons y ys ih =>
    simp only [List.map_cons, List.nodup_cons] at hnd
    rcases List.mem_cons.mp hm with rfl | h
    · simp [findDesafio_cons]
    · have hne : y.id ≠ d.id := by
        intro he
        exact hnd.1 (he ▸ List.mem_map_of_mem Desafio.id h)
      rw [findDesafio_cons, if_neg hne]
      exact ih hnd.2 h

/-- Replacing the found row makes the lookup return the replacement. -/
theorem findDesafio_updateDesafio (l : List Desafio) (i : Nat) (d d' : Desafio)
    (h : findDesafio l i = some d) (hid : d'.id = d.id) :
    findDesafio (updateDesafio l d') i = some d' := by
  have hdi : d.id = i := by
    have := List.find?_some h
    simpa using this
  induction l with
  | nil => simp [findDesafio] at h
  | cons y ys ih =>
    rw [findDesafio_cons] at h
    rw [updateDesafio_cons, findDesafio_cons]
    by_cases hy : y.id = i
    · have hyd : y = d := by
        rw [if_pos hy] at h; exact Option.some.inj h
      have hyid : y.id = d'.id := by rw [hid, hyd]
      rw [if_pos hyid, if_pos (by rw [hid, hdi])]
    · rw [if_neg hy] at h
      have hyid : y.id ≠ d'.id := by rw [hid, hdi]; exact hy
      rw [if_neg hyid, if_neg hy]
      exact ih h

/-- Replacing a row with a different id leaves other lookups unchanged. -/
theorem findDesafio_updateDesafio_ne (l : List Desafio) (d' : Desafio) (i : Nat)
    (h : d'.id ≠ i) :
    findDesafio (updateDesafio l d') i = findDesafio l i := by
  induction l with
  | nil => rfl
  | cons y ys ih =>
    rw [updateDesafio_cons, findDesafio_cons, findDesafio_cons]
    by_cases hy : y.id = d'.id
    · rw [if_pos hy, if_neg h, if_neg (hy ▸ h : ¬ y.id = i)]
      exact ih
    · rw [if_neg hy]
      by_cases hyi : y.id = i
      · rw [if_pos hyi, if_pos hyi]
      · rw [if_neg hyi, if_neg hyi]
        exact ih

/-- Row replacement preserves the id column. -/
theorem updateDesafio_map_id (l : List Desafio) (d' : Desafio) :
    (updateDesafio l d').map Desafio.id = l.map Desafio.id := by
  induction l with
  | nil => rfl
  | cons y ys ih =>
    rw [updateDesafio_cons, List.map_cons, List.map_cons, ih]
    by_cases hy : y.id = d'.id
    · rw [if_pos hy, hy]
    · rw [if_neg hy]

/-- Every row of a replaced table is the replacement or an original row. -/
theorem mem_updateDesafio (l : List Desafio) (d' y : Desafio)
    (h : y ∈ updateDesafio l d') : y = d' ∨ y ∈ l := by
  rcases List.mem_map.mp h with ⟨x, hx, hfx⟩
  by_cases hxi : x.id == d'.id
  · rw [if_pos hxi] at hfx
    exact Or.inl hfx.symm
  · rw [if_neg hxi] at hfx
    exact Or.inr (hfx ▸ hx)

/-- Updating the first pair makes its lookup return the new value. -/
theorem findPareja_updateParejas2_first (l : List Pareja) (a b : Pareja) (i : Nat)
    (p : Pareja) (h : findPareja l i = some p) (ha : a.id = i) :
    findPareja (updateParejas2 l a b) i = some a := by
  induction l with
  | nil => simp [findPareja] at h
  | cons y ys ih =>
    rw [findPareja_cons] at h
    rw [updateParejas2_cons, findPareja_cons]
    by_cases hy : y.id = i
    · rw [if_pos (by rw [hy, ha] : y.id = a.id)]
      rw [if_pos ha]
    · rw [if_neg hy] at h
      rw [if_neg (by rw [ha]; exact hy : ¬ y.id = a.id)]
      by_cases hyb : y.id = b.id
      · rw [if_pos hyb]
        by_cases hbi : b.id = i
        · rw [if_pos hbi]
          exact absurd (hyb.trans hbi) hy
        · rw [if_neg hbi]
          exact ih h
      · rw [if_neg hyb, if_neg hy]
        exact ih h

/-- Updating the second pair (whose id differs from the first's) makes its
lookup return the new value. -/
theorem findPareja_updateParejas2_second (l : List Pareja) (a b : Pareja) (i : Nat)
    (p : Pareja) (h : findPareja l i = some p) (hb : b.id = i) (hna : a.id ≠ i) :
    findPareja (updateParejas2 l a b) i = some b := by
  induction l with
  | nil => simp [findPareja] at h
  | cons y ys ih =>
    rw [findPareja_cons] at h
    rw [updateParejas2_cons, findPareja_cons]
    by_cases hy : y.id = i
    · rw [if_neg (by rw [hy]; exact fun he => hna he.symm : ¬ y.id = a.id)]
      rw [if_pos (by rw [hy, hb] : y.id = b.id), if_pos hb]
    · rw [if_neg hy] at h
      by_cases hya : y.id = a.id
      · rw [if_pos hya, if_neg hna]
        exact ih h
      · rw [if_neg hya]
        by_cases hyb : y.id = b.id
        · exact absurd (hyb.trans hb) hy
        · rw [if_neg hyb, if_neg hy]
          exact ih h

/-- One forfeit step never touches challenge rows of other ids. -/
theorem forfeit_step_find_ne (today : Int) (st : DB × Nat) (d0 : Desafio)
    (i : Nat) (h : d0.id ≠ i) :
    findDesafio (forfeit_step today st d0).1.desafios i
      = findDesafio st.1.desafios i := by
  unfold forfeit_step
  split
  · split
    · rfl
    · split
      · split
        · exact findDesafio_updateDesafio_ne _ _ _ h
        · exact findDesafio_updateDesafio_ne _ _ _ h
      · exact findDesafio_updateDesafio_ne _ _ _ h
  · rfl

/-- One forfeit step preserves the challenge-id column. -/
theorem forfeit_step_map_id (today : Int) (st : DB × Nat) (d0 : Desafio) :
    (forfeit_step today st d0).1.desafios.map Desafio.id
      = st.1.desafios.map Desafio.id := by
  unfold forfeit_step
  split
  · split
    · rfl
    · split
      · split
        · exact updateDesafio_map_id _ _
        · exact updateDesafio_map_id _ _
      · exact updateDesafio_map_id _ _
  · rfl

/-- Folding forfeit steps over challenges of other ids leaves a lookup
unchanged. -/
theorem foldl_forfeit_find_ne (today : Int) (l : List Desafio) (st : DB × Nat)
    (i : Nat) (h : ∀ d0 ∈ l, d0.id ≠ i) :
    findDesafio ((l.foldl (forfeit_step today) st).1.desafios) i
      = findDesafio st.1.desafios i := by
  induction l generalizing st with
  | nil => rfl
  | cons y ys ih =>
    rw [List.foldl_cons,
      ih (forfeit_step today st y) (fun d0 hd0 => h d0 (List.mem_cons_of_mem _ hd0))]
    exact forfeit_step_find_ne today st y i (h y (List.mem_cons_self _ _))

/-- Folding forfeit steps preserves the challenge-id column. -/
theorem foldl_forfeit_map_id (today : Int) (l : List Desafio) (st : DB × Nat) :
    ((l.foldl (forfeit_step today) st).1.desafios.map Desafio.id)
      = st.1.desafios.map Desafio.id := by
  induction l generalizing st with
  | nil => rfl
  | cons y ys ih =>
    rw [List.foldl_cons, ih (forfeit_step today st y)]
    exact forfeit_step_map_id today st y

/-- The forfeit sweep preserves the challenge-id column. -/
theorem sweep_map_id (now today : Int) (db : DB) :
    (apply_forfeit_if_expired now today db).1.desafios.map Desafio.id
      = db.desafios.map Desafio.id := by
  unfold apply_forfeit_if_expired
  exact foldl_forfeit_map_id today _ (db, 0)

/-- The forfeit sweep never modifies a challenge row that is not
Pendiente. -/
theorem sweep_preserves_row (now today : Int) (db : DB) (x : Desafio)
    (hnd : (db.desafios.map Desafio.id).Nodup) (hm : x ∈ db.desafios)
    (hst : x.estado ≠ "Pendiente") :
    findDesafio (apply_forfeit_if_expired now today db).1.desafios x.id
      = some x := by
  unfold apply_forfeit_if_expired
  rw [foldl_forfeit_find_ne]
  · exact findDesafio_nodup_mem _ _ hnd hm
  · intro d0 hd0 he
    have hd0f := List.mem_filter.mp hd0
    have hd0p : d0.estado = "Pendiente" := by
      have hb := hd0f.2
      unfold isExpiredPending at hb
      simp only [Bool.and_eq_true, beq_iff_eq] at hb
      exact hb.1
    have : d0 = x := List.inj_on_of_nodup_map hnd hd0f.1 hm he
    rw [this] at hd0p
    exact hst hd0p

/-- Index-explicit form of `sweep_preserves_row`. -/
theorem sweep_preserves_row_at (now today : Int) (db : DB) (x : Desafio)
    (i : Nat) (hnd : (db.desafios.map Desafio.id).Nodup) (hm : x ∈ db.desafios)
    (hst : x.estado ≠ "Pendiente") (hid : x.id = i) :
    findDesafio (apply_forfeit_if_expired now today db).1.desafios i
      = some x :=
  hid ▸ sweep_preserves_row now today db x hnd hm hst

/-- One forfeit step keeps the two ranking flags of every row equal,
provided the processed row's flags are equal. -/
theorem forfeit_step_flags (today : Int) (st : DB × Nat) (d0 : Desafio)
    (hall : ∀ y ∈ st.1.desafios, y.swap_aplicado = y.ranking_aplicado)
    (hd0 : d0.swap_aplicado = d0.ranking_aplicado) :
    ∀ y ∈ (forfeit_step today st d0).1.desafios,
      y.swap_aplicado = y.ranking_aplicado := by
  unfold forfeit_step
  split
  · split
    · exact hall
    · split
      · split
        · intro y hy
          rcases mem_updateDesafio _ _ _ hy with rfl | hmem
          · rfl
          · exact hall y hmem
        · intro y hy
          rcases mem_updateDesafio _ _ _ hy with rfl | hmem
          · rfl
          · exact hall y hmem
      · intro y hy
        rcases mem_updateDesafio _ _ _ hy with rfl | hmem
        · exact hd0
        · exact hall y hmem
  · exact hall

/-- Folding forfeit steps keeps the two ranking flags of every row equal. -/
theorem foldl_forfeit_flags (today : Int) (l : List Desafio) (st : DB × Nat)
    (hl : ∀ d0 ∈ l, d0.swap_aplicado = d0.ranking_aplicado)
    (hst : ∀ y ∈ st.1.desafios, y.swap_aplicado = y.ranking_aplicado) :
    ∀ y ∈ (l.foldl (forfeit_step today) st).1.desafios,
      y.swap_aplicado = y.ranking_aplicado := by
  induction l generalizing st with
  | nil => exact hst
  | cons z zs ih =>
    rw [List.foldl_cons]
    exact ih (forfeit_step today st z)
      (fun d0 hd0 => hl d0 (List.mem_cons_of_mem _ hd0))
      (forfeit_step_flags today st z hst (hl z (List.mem_cons_self _ _)))

/-- The forfeit sweep keeps the two ranking flags of every row equal. -/
theorem sweep_flags (now today : Int) (db : DB)
    (hall : ∀ y ∈ db.desafios, y.swap_aplicado = y.ranking_aplicado) :
    ∀ y ∈ (apply_forfeit_if_expired now today db).1.desafios,
      y.swap_aplicado = y.ranking_aplicado := by
  unfold apply_forfeit_if_expired
  exact foldl_forfeit_flags today _ (db, 0)
    (fun d0 hd0 => hall d0 (List.mem_filter.mp hd0).1) hall

/-- `aceptar_core` never modifies a row that is not Pendiente. -/
theorem aceptar_core_find (db : DB) (i : Nat) (x : Desafio)
    (hnd : (db.desafios.map Desafio.id).Nodup) (hm : x ∈ db.desafios)
    (hst : x.estado ≠ "Pendiente") :
    findDesafio (aceptar_core db i).1.desafios x.id = some x := by
  have hx : findDesafio db.desafios x.id = some x :=
    findDesafio_nodup_mem _ _ hnd hm
  unfold aceptar_core
  split
  · exact hx
  · rename_i d hd
    split
    · exact hx
    · split
      · exact hx
      · rename_i h1 h2
        have hdp : d.estado = "Pendiente" := not_not.mp h2
        have hdm : d ∈ db.desafios := List.mem_of_find?_eq_some hd
        have hne : d.id ≠ x.id := by
          intro he
          have heq : d = x := List.inj_on_of_nodup_map hnd hdm hm he
          rw [heq] at hdp
          exact hst hdp
        exact Eq.trans (findDesafio_updateDesafio_ne _ _ _ (by exact hne)) hx

/-- `rechazar_core` never modifies a row that is not Pendiente. -/
theorem rechazar_core_find (db : DB) (i : Nat) (x : Desafio)
    (hnd : (db.desafios.map Desafio.id).Nodup) (hm : x ∈ db.desafios)
    (hst : x.estado ≠ "Pendiente") :
    findDesafio (rechazar_core db i).1.desafios x.id = some x := by
  have hx : findDesafio db.desafios x.id = some x :=
    findDesafio_nodup_mem _ _ hnd hm
  unfold rechazar_core
  split
  · exact hx
  · rename_i d hd
    split
    · exact hx
    · split
      · exact hx
      · split
        · exact hx
        · rename_i h1 h2 h3
          have hdp : d.estado = "Pendiente" := not_not.mp h3
          have hdm : d ∈ db.desafios := List.mem_of_find?_eq_some hd
          have hne : d.id ≠ x.id := by
            intro he
            have heq : d = x := List.inj_on_of_nodup_map hnd hdm hm he
            rw [heq] at hdp
            exact hst hdp
          exact Eq.trans (findDesafio_updateDesafio_ne _ _ _ (by exact hne)) hx

/-- `reprogramar_core` never modifies a row that is not Pendiente. -/
theorem reprogramar_core_find (db : DB) (i j : Nat) (f : Int) (h : Hora)
    (x : Desafio)
    (hnd : (db.desafios.map Desafio.id).Nodup) (hm : x ∈ db.desafios)
    (hst : x.estado ≠ "Pendiente") :
    findDesafio (reprogramar_core db i j f h).1.desafios x.id = some x := by
  have hx : findDesafio db.desafios x.id = some x :=
    findDesafio_nodup_mem _ _ hnd hm
  unfold reprogramar_core
  split
  · exact hx
  · rename_i d hd
    split
    · exact hx
    · rename_i h1
      have hdp : d.estado = "Pendiente" := not_not.mp h1
      have hdm : d ∈ db.desafios := List.mem_of_find?_eq_some hd
      have hne : d.id ≠ x.id := by
        intro he
        have heq : d = x := List.inj_on_of_nodup_map hnd hdm hm he
        rw [heq] at hdp
        exact hst hdp
      split
      · split
        · exact hx
        · split
          · exact hx
          · split
            · exact hx
            · exact Eq.trans (findDesafio_updateDesafio_ne _ _ _ (by exact hne)) hx
      · exact hx

/-- `cargar_resultado_core` never modifies a Jugado row. -/
theorem resultado_core_find (db : DB) (i j : Nat) (data : ResultadoSets)
    (today : Int) (x : Desafio)
    (hnd : (db.desafios.map Desafio.id).Nodup) (hm : x ∈ db.desafios)
    (hst : x.estado = "Jugado") :
    findDesafio (cargar_resultado_core db i j data today).1.desafios x.id
      = some x := by
  have hx : findDesafio db.desafios x.id = some x :=
    findDesafio_nodup_mem _ _ hnd hm
  unfold cargar_resultado_core
  split
  · exact hx
  · rename_i d hd
    split
    · exact hx
    · rename_i hjug
      have hdm : d ∈ db.desafios := List.mem_of_find?_eq_some hd
      have hne : d.id ≠ x.id := by
        intro he
        have heq : d = x := List.inj_on_of_nodup_map hnd hdm hm he
        rw [heq] at hjug
        exact hjug hst
      split
      · split
        · exact hx
        · split
          · exact hx
          · split
            · exact hx
            · split
              · exact hx
              · repeat' split
                all_goals
                  exact Eq.trans (findDesafio_updateDesafio_ne _ _ _ (by exact hne)) hx
      · exact hx

/-- Anatomy of a successful result submission: the returned row is Jugado,
has `ranking_aplicado` set, names one of the two participating pairs as the
winner, has `swap_aplicado` false whenever the challenged side won, and is
what the final state stores under its id. -/
theorem cargar_resultado_core_ok (db : DB) (i j : Nat) (data : ResultadoSets)
    (today : Int) (d' : Desafio)
    (h : (cargar_resultado_core db i j data today).2 = .ok d') :
    d'.estado = "Jugado" ∧ d'.ranking_aplicado = true ∧
    (d'.ganador_pareja_id = some d'.retadora_pareja_id ∨
      d'.ganador_pareja_id = some d'.retada_pareja_id) ∧
    (d'.ganador_pareja_id = some d'.retada_pareja_id →
      d'.retadora_pareja_id ≠ d'.retada_pareja_id → d'.swap_aplicado = false) ∧
    findDesafio (cargar_resultado_core db i j data today).1.desafios d'.id
      = some d' := by
  unfold cargar_resultado_core at h ⊢
  revert h
  split
  · intro h; simp at h
  · rename_i d hfd
    have hdi : d.id = i := by simpa using List.find?_some hfd
    split
    · intro h; simp at h
    · rename_i hjug
      split
      · rename_i retadora retada hfr hfd2
        have hra : retadora.id = d.retadora_pareja_id := by
          simpa using List.find?_some hfr
        have hrd : retada.id = d.retada_pareja_id := by
          simpa using List.find?_some hfd2
        split
        · intro h; simp at h
        · split
          · intro h; simp at h
          · split
            · intro h; simp at h
            · split
              · intro h; simp at h
              · rename_i g hg
                cases g with
                | true =>
                  repeat' split
                  all_goals
                    first
                    | (intro h
                       have hdd := Except.ok.inj h
                       subst hdd
                       refine ⟨rfl, rfl,
                         Or.inl (show some retadora.id = some d.retadora_pareja_id
                           by rw [hra]), ?_,
                         findDesafio_updateDesafio _ _ d _ (hdi ▸ hfd) rfl⟩
                       intro h1 h2
                       refine absurd
                         (show d.retadora_pareja_id = d.retada_pareja_id from ?_) h2
                       rw [← hra]
                       exact Option.some.inj h1)
                    | simp_all
                | false =>
                  repeat' split
                  all_goals
                    first
                    | (intro h
                       have hdd := Except.ok.inj h
                       subst hdd
                       exact ⟨rfl, rfl,
                         Or.inr (show some retada.id = some d.retada_pareja_id
                           by rw [hrd]), fun _ _ => rfl,
                         findDesafio_updateDesafio _ _ d _ (hdi ▸ hfd) rfl⟩)
                    | simp_all
      · intro h; simp at h

/-- `aceptar_core` keeps the two ranking flags of every row equal. -/
theorem aceptar_core_flags (db : DB) (i : Nat)
    (hall : ∀ y ∈ db.desafios, y.swap_aplicado = y.ranking_aplicado) :
    ∀ y ∈ (aceptar_core db i).1.desafios,
      y.swap_aplicado = y.ranking_aplicado := by
  unfold aceptar_core
  split
  · exact hall
  · rename_i d hd
    split
    · exact hall
    · split
      · exact hall
      · intro y hy
        rcases mem_updateDesafio _ _ _ hy with rfl | hmem
        · exact hall d (List.mem_of_find?_eq_some hd)
        · exact hall y hmem

/-- `rechazar_core` keeps the two ranking flags of every row equal. -/
theorem rechazar_core_flags (db : DB) (i : Nat)
    (hall : ∀ y ∈ db.desafios, y.swap_aplicado = y.ranking_aplicado) :
    ∀ y ∈ (rechazar_core db i).1.desafios,
      y.swap_aplicado = y.ranking_aplicado := by
  unfold rechazar_core
  split
  · exact hall
  · rename_i d hd
    split
    · exact hall
    · split
      · exact hall
      · split
        · exact hall
        · intro y hy
          rcases mem_updateDesafio _ _ _ hy with rfl | hmem
          · exact hall d (List.mem_of_find?_eq_some hd)
          · exact hall y hmem

/-- `reprogramar_core` keeps the two ranking flags of every row equal. -/
theorem reprogramar_core_flags (db : DB) (i j : Nat) (f : Int) (h : Hora)
    (hall : ∀ y ∈ db.desafios, y.swap_aplicado = y.ranking_aplicado) :
    ∀ y ∈ (reprogramar_core db i j f h).1.desafios,
      y.swap_aplicado = y.ranking_aplicado := by
  unfold reprogramar_core
  split
  · exact hall
  · rename_i d hd
    split
    · exact hall
    · split
      · split
        · exact hall
        · split
          · exact hall
          · split
            · exact hall
            · intro y hy
              rcases mem_updateDesafio _ _ _ hy with rfl | hmem
              · exact hall d (List.mem_of_find?_eq_some hd)
              · exact hall y hmem
      · exact hall

/-- Excluding a counted challenge from its own weekly count lowers the count
by exactly one. -/
theorem count_exclusion (desafios : List Desafio) (d : Desafio) (pid : Nat)
    (f : Int) (hnd : (desafios.map Desafio.id).Nodup) (hm : d ∈ desafios)
    (hc : cuenta_en_semana pid f none d = true) :
    count_partidos_semana desafios pid f (some d.id) + 1
      = count_partidos_semana desafios pid f none := by
  unfold count_partidos_semana
  induction desafios with
  | nil => simp at hm
  | cons y ys ih =>
    simp only [List.map_cons, List.nodup_cons] at hnd
    rcases List.mem_cons.mp hm with rfl | hmem
    · have hdf : cuenta_en_semana pid f (some d.id) d = false := by
        unfold cuenta_en_semana
        simp
      have hfilcong : ys.filter (cuenta_en_semana pid f (some d.id))
          = ys.filter (cuenta_en_semana pid f none) := by
        apply List.filter_congr
        intro x hx
        have hne : x.id ≠ d.id := fun he =>
          hnd.1 (he ▸ List.mem_map_of_mem Desafio.id hx)
        unfold cuenta_en_semana
        simp [hne]
      rw [List.filter_cons, List.filter_cons, if_neg (by simp [hdf]),
        if_pos (by simp [hc]), hfilcong, List.length_cons]
    · have hyne : y.id ≠ d.id := fun he =>
        hnd.1 (he ▸ List.mem_map_of_mem Desafio.id hmem)
      have hy : cuenta_en_semana pid f (some d.id) y
          = cuenta_en_semana pid f none y := by
        unfold cuenta_en_semana
        simp [hyne]
      rw [List.filter_cons, List.filter_cons, hy]
      by_cases hcy : cuenta_en_semana pid f none y = true
      · rw [if_pos (by simp [hcy]), if_pos (by simp [hcy])]
        simp only [List.length_cons]
        have := ih hnd.2 hmem
        omega
      · rw [if_neg (by simp [Bool.not_eq_true] at hcy; simp [hcy]),
          if_neg (by simp [Bool.not_eq_true] at hcy; simp [hcy])]
        exact ih hnd.2 hmem

/-- No exposed operation modifies a Jugado challenge row. -/
theorem jugado_row_preserved (now today : Int) (db : DB) (op : Op)
    (x : Desafio) (hnd : (db.desafios.map Desafio.id).Nodup)
    (hm : x ∈ db.desafios) (hst : x.estado = "Jugado") :
    findDesafio (runOp now today db op).desafios x.id = some x := by
  have hnp : x.estado ≠ "Pendiente" := by rw [hst]; decide
  have h1 := sweep_preserves_row now today db x hnd hm hnp
  have hnd' : ((apply_forfeit_if_expired now today db).1.desafios.map
      Desafio.id).Nodup := by
    rw [sweep_map_id]; exact hnd
  have hm' : x ∈ (apply_forfeit_if_expired now today db).1.desafios :=
    List.mem_of_find?_eq_some h1
  cases op with
  | aceptar i => exact aceptar_core_find _ i x hnd' hm' hnp
  | rechazar i => exact rechazar_core_find _ i x hnd' hm' hnp
  | reprogramar i j f h => exact reprogramar_core_find _ i j f h x hnd' hm' hnp
  | resultado i j data => exact resultado_core_find _ i j data today x hnd' hm' hst
  | sweep => exact h1

/-- No exposed operation other than result submission modifies a Rechazado
challenge row. -/
theorem rechazado_row_preserved (now today : Int) (db : DB) (op : Op)
    (x : Desafio) (hnd : (db.desafios.map Desafio.id).Nodup)
    (hm : x ∈ db.desafios) (hst : x.estado = "Rechazado")
    (hno : ∀ i j data, op ≠ Op.resultado i j data) :
    findDesafio (runOp now today db op).desafios x.id = some x := by
  have hnp : x.estado ≠ "Pendiente" := by rw [hst]; decide
  have h1 := sweep_preserves_row now today db x hnd hm hnp
  have hnd' : ((apply_forfeit_if_expired now today db).1.desafios.map
      Desafio.id).Nodup := by
    rw [sweep_map_id]; exact hnd
  have hm' : x ∈ (apply_forfeit_if_expired now today db).1.desafios :=
    List.mem_of_find?_eq_some h1
  cases op with
  | aceptar i => exact aceptar_core_find _ i x hnd' hm' hnp
  | rechazar i => exact rechazar_core_find _ i x hnd' hm' hnp
  | reprogramar i j f h => exact reprogramar_core_find _ i j f h x hnd' hm' hnp
  | resultado i j data => exact absurd rfl (hno i j data)
  | sweep => exact h1

/-- `_gana_retador` satisfies the spec's adjudication contract verbatim. -/
theorem gana_retador_eq_spec (data : ResultadoSets) :
    gana_retador data = adjudicator_spec data := by
  unfold gana_retador adjudicator_spec cnt
  by_cases h1 : data.set1_retador = data.set1_desafiado
  · simp [h1]
  · by_cases h2 : data.set2_retador = data.set2_desafiado
    · simp [h1, h2]
    · by_cases w1 : data.set1_desafiado < data.set1_retador
        <;> by_cases w2 : data.set2_desafiado < data.set2_retador
        <;> simp [h1, h2, w1, w2]
        <;> cases data.set3_retador
        <;> cases data.set3_desafiado
        <;> simp
        <;> rename_i a b
        <;> by_cases h3 : a = b
        <;> by_cases w3 : b < a
        <;> simp [h3, w3]

/-- `_interdivision_allowed` coincides with its closed form
`interdivision_char` on every input. -/
theorem interdivision_allowed_eq_char (parejas : List Pareja)
    (retadora retada : Pareja) :
    interdivision_allowed parejas retadora retada
      = interdivision_char parejas retadora retada := by
  unfold interdivision_allowed interdivision_char
  by_cases hr : division_from_grupo retadora.grupo = "B"
    <;> by_cases hd : division_from_grupo retada.grupo = "A"
    <;> simp [hr, hd]
  · cases retadora.posicion_actual <;> cases retada.posicion_actual <;> simp
    rename_i pr pd
    by_cases hsp : pr = 1 ∧ pd = 18
    · simp [hsp.1, hsp.2]
    · by_cases htop : pr = 1 ∨ pr = 2 ∨ pr = 3
        <;> cases max_pos_in_grupo parejas (categoria_from_grupo retadora.grupo ++ " A")
        <;> simp [hsp, htop, Bool.or_assoc]

/-- C4: for every set-score submission, a tied set 1 or set 2 fails with
InvalidScore; when the first two sets are split, an absent third set fails
with MissingDecidingSet and a tied third set fails with InvalidScore;
otherwise the adjudicator returns "challenger won" exactly when the
challenger wins the majority of the sets actually played (2 of 2, or
2 of 3), with no side effects (the function is pure by construction). -/
theorem adjudicator_spec_correct (data : ResultadoSets) :
    gana_retador data = adjudicator_spec data :=
  gana_retador_eq_spec data

/-- C10: the adjudicator performs no range validation: for all integer
scores, including negative ones and values above 7, as long as no played
set is tied and a deciding third set is present when the first two are
split, it returns a winner decided purely by per-set numeric comparison and
raises no error. -/
theorem adjudicator_no_range_validation (d : ResultadoSets)
    (h1 : d.set1_retador ≠ d.set1_desafiado)
    (h2 : d.set2_retador ≠ d.set2_desafiado)
    (h3 : ¬(d.set1_desafiado < d.set1_retador ↔ d.set2_desafiado < d.set2_retador) →
      ∃ a b, d.set3_retador = some a ∧ d.set3_desafiado = some b ∧ a ≠ b) :
    (∃ w : Bool, gana_retador d = .ok w) ∧
    ((d.set1_desafiado < d.set1_retador ↔ d.set2_desafiado < d.set2_retador) →
      gana_retador d = .ok (decide (d.set1_desafiado < d.set1_retador))) ∧
    (∀ a b, d.set3_retador = some a → d.set3_desafiado = some b →
      ¬(d.set1_desafiado < d.set1_retador ↔ d.set2_desafiado < d.set2_retador) →
      a ≠ b → gana_retador d = .ok (decide (b < a))) := by
  unfold gana_retador
  rw [if_neg h1, if_neg h2]
  by_cases w1 : d.set1_desafiado < d.set1_retador
    <;> by_cases w2 : d.set2_desafiado < d.set2_retador
  · refine ⟨⟨true, by simp [w1, w2]⟩, fun _ => by simp [w1, w2], ?_⟩
    intro a b _ _ hs _
    exact absurd (iff_of_true w1 w2) hs
  · obtain ⟨a, b, ha, hb, hab⟩ := h3 (by simp [w1, w2])
    refine ⟨?_, ?_, ?_⟩
    · by_cases w3 : b < a
      · exact ⟨true, by simp [w1, w2, ha, hb, hab, w3]⟩
      · exact ⟨false, by simp [w1, w2, ha, hb, hab, w3]⟩
    · intro hiff
      exact absurd hiff (by simp [w1, w2])
    · intro a' b' ha' hb' _ hab'
      rw [ha] at ha'
      rw [hb] at hb'
      obtain rfl := Option.some.inj ha'
      obtain rfl := Option.some.inj hb'
      by_cases w3 : b < a
      · simp [w1, w2, ha, hb, hab, w3]
      · simp [w1, w2, ha, hb, hab, w3]
  · obtain ⟨a, b, ha, hb, hab⟩ := h3 (by simp [w1, w2])
    refine ⟨?_, ?_, ?_⟩
    · by_cases w3 : b < a
      · exact ⟨true, by simp [w1, w2, ha, hb, hab, w3]⟩
      · exact ⟨false, by simp [w1, w2, ha, hb, hab, w3]⟩
    · intro hiff
      exact absurd hiff (by simp [w1, w2])
    · intro a' b' ha' hb' _ hab'
      rw [ha] at ha'
      rw [hb] at hb'
      obtain rfl := Option.some.inj ha'
      obtain rfl := Option.some.inj hb'
      by_cases w3 : b < a
      · simp [w1, w2, ha, hb, hab, w3]
      · simp [w1, w2, ha, hb, hab, w3]
  · refine ⟨⟨false, by simp [w1, w2]⟩, fun _ => by simp [w1, w2], ?_⟩
    intro a b _ _ hs _
    exact absurd (iff_of_false w1 w2) hs

/-- Witness for C10 at out-of-range scores: sets (-5,-7), (9,100) split, and
the deciding set (50,-2) gives the challenger the match. -/
theorem adjudicator_no_range_validation_witness :
    ∃ w : Bool, gana_retador ⟨none, -5, -7, 9, 100, some 50, some (-2)⟩ = .ok w :=
  (adjudicator_no_range_validation ⟨none, -5, -7, 9, 100, some 50, some (-2)⟩
    (by decide) (by decide)
    (fun _ => ⟨50, -2, rfl, rfl, by decide⟩)).1

/-- C5: in a same-group challenge with both positions known, validation
fails with PositionOrderViolation unless the challenged pair sits strictly
higher (smaller position), fails with MaxSlotGapExceeded when the gap
exceeds 3, and succeeds otherwise; with an unknown position the checks are
skipped and validation succeeds (given category and weekly caps passed). -/
theorem same_group_position_rules (parejas : List Pareja)
    (desafios : List Desafio) (retadora retada : Pareja) (fecha : Int)
    (excl : Option Nat)
    (hcat : same_category retadora retada = true)
    (hc1 : count_partidos_semana desafios retadora.id fecha excl < 2)
    (hc2 : count_partidos_semana desafios retada.id fecha excl < 2)
    (hgr : retadora.grupo = retada.grupo) :
    (∀ pr pd, retadora.posicion_actual = some pr →
      retada.posicion_actual = some pd →
      ((pr ≤ pd → validate_desafio_rules parejas desafios retadora retada fecha excl
          = .error .PositionOrderViolation) ∧
       (pd < pr → 3 < pr - pd →
          validate_desafio_rules parejas desafios retadora retada fecha excl
            = .error .MaxSlotGapExceeded) ∧
       (pd < pr → pr - pd ≤ 3 →
          validate_desafio_rules parejas desafios retadora retada fecha excl
            = .ok ()))) ∧
    ((retadora.posicion_actual = none ∨ retada.posicion_actual = none) →
      validate_desafio_rules parejas desafios retadora retada fecha excl
        = .ok ()) := by
  have hval : validate_desafio_rules parejas desafios retadora retada fecha excl
      = match retadora.posicion_actual, retada.posicion_actual with
        | some pr, some pd =>
          if pr ≤ pd then .error .PositionOrderViolation
          else if 3 < pr - pd then .error .MaxSlotGapExceeded
          else .ok ()
        | _, _ => .ok () := by
    unfold validate_desafio_rules
    rw [if_neg (by rw [hcat]; decide), if_neg (by omega), if_neg (by omega),
      if_pos hgr]
  constructor
  · intro pr pd hpr hpd
    rw [hval]
    simp only [hpr, hpd]
    refine ⟨fun h => by rw [if_pos h], fun h1 h2 => ?_, fun h1 h2 => ?_⟩
    · rw [if_neg (by omega), if_pos h2]
    · rw [if_neg (by omega), if_neg (by omega)]
  · intro hn
    rw [hval]
    rcases hn with h | h
    · rw [h]
    · rw [h]
      cases retadora.posicion_actual <;> rfl

/-- Witness for C5: `pM5` (position 5) challenging `pM4` (position 4) in the
same group, with no other challenges, validates successfully. -/
theorem same_group_position_rules_witness :
    validate_desafio_rules [] [] pM5 pM4 0 none = .ok () :=
  ((same_group_position_rules [] [] pM5 pM4 0 none (by decide)
    (by decide) (by decide) rfl).1 5 4 rfl rfl).2.2 (by decide) (by decide)

/-- C3 counterexample: with A's last place at position 30, the code still
allows B's rank 1 to challenge the A pair sitting at position 18 — the
special case is the hardcoded position pair (1, 18), not rank 1 versus the
computed last place as the claim states. -/
theorem interdivision_counterexample :
    interdivision_allowed parejasC3 pB1 pA18 = true
      ∧ interdivision_spec parejasC3 pB1 pA18 = false
      ∧ max_pos_in_grupo parejasC3 "Masculino A" = some 30
      ∧ pA18.posicion_actual = some 18 :=
  ⟨rfl, rfl, rfl, rfl⟩

/-- C3 amended: interdivision eligibility equals its closed form whose
special case is the hardcoded positions (1, 18); a B pair ranked 4 or worse
is never eligible; B's rank 1 against A's computed last place is eligible
(through the bottom-three window); and a successful validation of a
cross-group challenge implies both the category match and interdivision
eligibility. -/
theorem interdivision_amended_rules :
    (∀ parejas retadora retada,
      interdivision_allowed parejas retadora retada
        = interdivision_char parejas retadora retada) ∧
    (∀ parejas (retadora retada : Pareja) (pr : Nat),
      retadora.posicion_actual = some pr → 4 ≤ pr →
      interdivision_allowed parejas retadora retada = false) ∧
    (∀ parejas (retadora retada : Pareja) (last : Nat),
      division_from_grupo retadora.grupo = "B" →
      division_from_grupo retada.grupo = "A" →
      retadora.posicion_actual = some 1 →
      max_pos_in_grupo parejas
        (categoria_from_grupo retadora.grupo ++ " A") = some last →
      retada.posicion_actual = some last →
      interdivision_allowed parejas retadora retada = true) ∧
    (∀ parejas desafios (retadora retada : Pareja) (f : Int) (excl : Option Nat),
      validate_desafio_rules parejas desafios retadora retada f excl = .ok () →
      retadora.grupo ≠ retada.grupo →
      same_category retadora retada = true
        ∧ interdivision_allowed parejas retadora retada = true) := by
  refine ⟨interdivision_allowed_eq_char, ?_, ?_, ?_⟩
  · intro parejas retadora retada pr hpr h4
    rw [interdivision_allowed_eq_char]
    unfold interdivision_char
    rw [hpr]
    cases hpd : retada.posicion_actual
    · simp
    · simp [show ¬ pr = 1 from by omega, show ¬ pr = 2 from by omega,
        show ¬ pr = 3 from by omega]
  · intro parejas retadora retada last hB hA h1 hmax hlast
    rw [interdivision_allowed_eq_char]
    unfold interdivision_char
    rw [h1, hlast, hB, hA, hmax]
    simp
  · intro parejas desafios retadora retada f excl hval hgr
    unfold validate_desafio_rules at hval
    by_cases hcv : same_category retadora retada = false
    · rw [if_pos hcv] at hval
      simp at hval
    · rw [if_neg hcv] at hval
      by_cases hw1 : 2 ≤ count_partidos_semana desafios retadora.id f excl
      · rw [if_pos hw1] at hval
        simp at hval
      · rw [if_neg hw1] at hval
        by_cases hw2 : 2 ≤ count_partidos_semana desafios retada.id f excl
        · rw [if_pos hw2] at hval
          simp at hval
        · rw [if_neg hw2] at hval
          rw [if_neg hgr] at hval
          by_cases hiv : interdivision_allowed parejas retadora retada = false
          · rw [if_pos hiv] at hval
            simp at hval
          · rw [if_neg hiv] at hval
            refine ⟨?_, ?_⟩
            · cases hc2 : same_category retadora retada
              · exact absurd hc2 hcv
              · rfl
            · cases hi2 : interdivision_allowed parejas retadora retada
              · exact absurd hi2 hiv
              · rfl

/-- Witness for C3 (amended), second part: `pB5`, ranked 5 in division B,
cannot challenge any division-A pair. -/
theorem interdivision_amended_rules_witness :
    interdivision_allowed parejasC3 pB5 pA30 = false :=
  interdivision_amended_rules.2.1 parejasC3 pB5 pA30 5 rfl (by decide)

/-- C6: the weekly cap counts challenges in states Pendiente, Aceptado or
Jugado scheduled inside the Monday-to-Sunday week of the proposed date, per
pair; validation fails with WeeklyLimitExceeded when either pair's count
reaches 2; and on a reschedule the challenge itself is excluded from its
own count, so one of a pair's 2 same-week challenges can be moved within
that week. -/
theorem weekly_cap_rules (parejas : List Pareja) (desafios : List Desafio)
    (retadora retada : Pareja) (f : Int) (excl : Option Nat) (d : Desafio)
    (hnd : (desafios.map Desafio.id).Nodup) (hm : d ∈ desafios)
    (hcount : cuenta_en_semana retadora.id f none d = true) :
    ((semana_range f).1 ≤ f ∧ f ≤ (semana_range f).2
      ∧ (semana_range f).1 % 7 = 0
      ∧ (semana_range f).2 = (semana_range f).1 + 6) ∧
    (same_category retadora retada = true →
      2 ≤ count_partidos_semana desafios retadora.id f excl
        ∨ 2 ≤ count_partidos_semana desafios retada.id f excl →
      validate_desafio_rules parejas desafios retadora retada f excl
        = .error .WeeklyLimitExceeded) ∧
    (count_partidos_semana desafios retadora.id f (some d.id) + 1
      = count_partidos_semana desafios retadora.id f none) ∧
    (count_partidos_semana desafios retadora.id f none = 2 →
      count_partidos_semana desafios retadora.id f (some d.id) < 2) := by
  refine ⟨?_, ?_, ?_, ?_⟩
  · have h1 : (semana_range f).1 = f - f % 7 := rfl
    have h2 : (semana_range f).2 = f - f % 7 + 6 := rfl
    rw [h1, h2]
    refine ⟨?_, ?_, ?_, ?_⟩ <;> omega
  · intro hcat hor
    unfold validate_desafio_rules
    rw [if_neg (by rw [hcat]; decide)]
    by_cases hq1 : 2 ≤ count_partidos_semana desafios retadora.id f excl
    · rw [if_pos hq1]
    · rw [if_neg hq1,
        if_pos (by rcases hor with h | h; exacts [absurd h hq1, h])]
  · exact count_exclusion desafios d retadora.id f hnd hm hcount
  · intro h2
    have := count_exclusion desafios d retadora.id f hnd hm hcount
    omega

/-- Witness for C6: pair 6 has 2 challenges in the week of day 3; excluding
the one being rescheduled (id 110) its count drops below the cap. -/
theorem weekly_cap_rules_witness :
    count_partidos_semana desafiosSem 6 3 (some 110) < 2 :=
  (weekly_cap_rules [] desafiosSem pM4 pM5 3 none cxSem1 (by decide)
    (by decide) (by decide)).2.2.2 (by decide)

/-- C2 counterexample: submitting a valid result on the Rechazado challenge
`cxC2` succeeds and transitions it to Jugado — the state check of
`cargar_resultado` rejects only Jugado, so a Rechazado challenge is not
terminal under result submission as the claim states. -/
theorem terminal_states_counterexample :
    (cargar_resultado 0 50 dbC2 200 71 resC2).2 = .ok cxC2done
      ∧ cxC2.estado = "Rechazado" ∧ cxC2done.estado = "Jugado" :=
  ⟨rfl, rfl, rfl⟩

/-- C2 amended: Jugado is terminal under every exposed operation, and
Rechazado is terminal under accept, reject, reschedule and the forfeit
sweep; but a result submission on a Rechazado challenge passes the state
check and can succeed, transitioning it to Jugado. -/
theorem terminal_states_amended :
    (∀ (now today : Int) (db : DB) (op : Op) (x : Desafio),
      (db.desafios.map Desafio.id).Nodup → x ∈ db.desafios →
      x.estado = "Jugado" →
      findDesafio (runOp now today db op).desafios x.id = some x) ∧
    (∀ (now today : Int) (db : DB) (op : Op) (x : Desafio),
      (db.desafios.map Desafio.id).Nodup → x ∈ db.desafios →
      x.estado = "Rechazado" →
      (∀ i j data, op ≠ Op.resultado i j data) →
      findDesafio (runOp now today db op).desafios x.id = some x) ∧
    ((cargar_resultado 0 50 dbC2 200 71 resC2).2 = .ok cxC2done
      ∧ cxC2done.estado = "Jugado") :=
  ⟨fun now today db op x hnd hm hst =>
      jugado_row_preserved now today db op x hnd hm hst,
   fun now today db op x hnd hm hst hno =>
      rechazado_row_preserved now today db op x hnd hm hst hno,
   rfl, rfl⟩

/-- Witness for C2 (amended): accepting the already-played challenge
`cxJugado` leaves its row untouched. -/
theorem terminal_states_amended_witness :
    findDesafio (runOp 0 50 dbJugado (Op.aceptar 102)).desafios 102
      = some cxJugado :=
  terminal_states_amended.1 0 50 dbJugado (Op.aceptar 102) cxJugado
    (by decide) (by decide) rfl

/-- C7 counterexample: after the challenger loses a result submission, the
stored row has `ranking_aplicado` true but `swap_aplicado` false — the two
flags are not set together as the claim states. -/
theorem flags_counterexample :
    (cargar_resultado 0 50 dbAcc 103 71 resLoss).2 = .ok cxAccLoss
      ∧ cxAccLoss.ranking_aplicado = true ∧ cxAccLoss.swap_aplicado = false :=
  ⟨rfl, rfl, rfl⟩

/-- C7 amended: accept, reject, reschedule and the forfeit sweep preserve
equality of the two flags (the sweep sets both together); a successful
result submission always sets `ranking_aplicado` and leaves `swap_aplicado`
false when the challenged side won, so the flags can differ afterwards; and
Jugado rows — the only rows the code ever sets the flags on — are never
modified again, so neither flag is ever cleared once set. -/
theorem flags_amended :
    (∀ (now today : Int) (db : DB) (op : Op),
      (∀ i j data, op ≠ Op.resultado i j data) →
      (∀ y ∈ db.desafios, y.swap_aplicado = y.ranking_aplicado) →
      ∀ y ∈ (runOp now today db op).desafios,
        y.swap_aplicado = y.ranking_aplicado) ∧
    (∀ (now today : Int) (db : DB) (i j : Nat) (data : ResultadoSets)
        (db' : DB) (d' : Desafio),
      cargar_resultado now today db i j data = (db', .ok d') →
      d'.ranking_aplicado = true ∧
      (d'.ganador_pareja_id = some d'.retada_pareja_id →
        d'.retadora_pareja_id ≠ d'.retada_pareja_id →
        d'.swap_aplicado = false)) ∧
    (∀ (now today : Int) (db : DB) (op : Op) (x : Desafio),
      (db.desafios.map Desafio.id).Nodup → x ∈ db.desafios →
      x.estado = "Jugado" →
      findDesafio (runOp now today db op).desafios x.id = some x) := by
  refine ⟨?_, ?_, ?_⟩
  · intro now today db op hno hall
    have hsw := sweep_flags now today db hall
    cases op with
    | aceptar i => exact aceptar_core_flags _ i hsw
    | rechazar i => exact rechazar_core_flags _ i hsw
    | reprogramar i j f h => exact reprogramar_core_flags _ i j f h hsw
    | resultado i j data => exact absurd rfl (hno i j data)
    | sweep => exact hsw
  · intro now today db i j data db' d' h
    have h2 : (cargar_resultado now today db i j data).2 = .ok d' := by rw [h]
    have hh := cargar_resultado_core_ok _ i j data today d' h2
    exact ⟨hh.2.1, hh.2.2.2.1⟩
  · intro now today db op x hnd hm hst
    exact jugado_row_preserved now today db op x hnd hm hst

/-- Witness for C7 (amended): the challenged side winning `cxAcc` yields a
row with `ranking_aplicado` true and `swap_aplicado` false. -/
theorem flags_amended_witness :
    cxAccLoss.ranking_aplicado = true ∧
    (cxAccLoss.ganador_pareja_id = some cxAccLoss.retada_pareja_id →
      cxAccLoss.retadora_pareja_id ≠ cxAccLoss.retada_pareja_id →
      cxAccLoss.swap_aplicado = false) :=
  flags_amended.2.1 0 50 dbAcc 103 71 resLoss dbAccLoss cxAccLoss rfl

/-- C8: every successful result submission on a non-Played challenge stores
a row in state Jugado whose winner is one of the two participating pair ids
and whose `ranking_aplicado` flag is true, regardless of which side won. -/
theorem resultado_roundtrip (now today : Int) (db : DB) (i j : Nat)
    (data : ResultadoSets) (db' : DB) (d' : Desafio)
    (h : cargar_resultado now today db i j data = (db', .ok d')) :
    d'.estado = "Jugado" ∧ d'.ranking_aplicado = true ∧
    (d'.ganador_pareja_id = some d'.retadora_pareja_id ∨
      d'.ganador_pareja_id = some d'.retada_pareja_id) ∧
    findDesafio db'.desafios d'.id = some d' := by
  have h2 : (cargar_resultado now today db i j data).2 = .ok d' := by rw [h]
  have hh := cargar_resultado_core_ok _ i j data today d' h2
  refine ⟨hh.1, hh.2.1, hh.2.2.1, ?_⟩
  have h1 : (cargar_resultado now today db i j data).1 = db' := by rw [h]
  rw [← h1]
  exact hh.2.2.2.2

/-- Witness for C8: the challenger winning `cxAcc` in three sets yields a
Jugado row, winner pair 7, with `ranking_aplicado` true, stored in the
final state. -/
theorem resultado_roundtrip_witness :
    cxAccWin.estado = "Jugado" ∧ cxAccWin.ranking_aplicado = true ∧
    (cxAccWin.ganador_pareja_id = some cxAccWin.retadora_pareja_id ∨
      cxAccWin.ganador_pareja_id = some cxAccWin.retada_pareja_id) ∧
    findDesafio dbAccWin.desafios cxAccWin.id = some cxAccWin :=
  resultado_roundtrip 0 50 dbAcc 103 71 resWin dbAccWin cxAccWin rfl

/-- C9: when either pair's position is unknown, the forfeit sweep still
transitions the expired Pendiente challenge to Jugado with the challenger
as winner and the played date set, but leaves every pair row unchanged and
both ranking flags false. -/
theorem forfeit_unknown_position (now today : Int) (db : DB) (d : Desafio)
    (retadora retada : Pareja)
    (hnd : (db.desafios.map Desafio.id).Nodup)
    (hfil : db.desafios.filter (isExpiredPending now) = [d])
    (hr : findPareja db.parejas d.retadora_pareja_id = some retadora)
    (hd : findPareja db.parejas d.retada_pareja_id = some retada)
    (hcat : same_category retadora retada = true)
    (hpos : retadora.posicion_actual = none ∨ retada.posicion_actual = none)
    (hsw : d.swap_aplicado = false) (hrk : d.ranking_aplicado = false) :
    (apply_forfeit_if_expired now today db).1.parejas = db.parejas ∧
    ∃ d', findDesafio (apply_forfeit_if_expired now today db).1.desafios d.id
        = some d'
      ∧ d'.estado = "Jugado"
      ∧ d'.ganador_pareja_id = some retadora.id
      ∧ d'.fecha_jugado = some today
      ∧ d'.swap_aplicado = false
      ∧ d'.ranking_aplicado = false := by
  have hstep : apply_forfeit_if_expired now today db
      = forfeit_step today (db, 0) d := by
    unfold apply_forfeit_if_expired
    rw [hfil]
    rfl
  have hdm : d ∈ db.desafios := by
    have hin : d ∈ db.desafios.filter (isExpiredPending now) := by
      rw [hfil]
      exact List.mem_cons_self _ _
    exact (List.mem_filter.mp hin).1
  have hfd : findDesafio db.desafios d.id = some d :=
    findDesafio_nodup_mem _ _ hnd hdm
  rw [hstep]
  unfold forfeit_step
  simp only [hr, hd, hcat]
  rw [if_neg (by decide)]
  rcases hpos with h | h
  · rw [h]
    refine ⟨rfl, ?_⟩
    exact ⟨_, findDesafio_updateDesafio db.desafios d.id d _ hfd rfl,
      rfl, rfl, rfl, hsw, hrk⟩
  · rw [h]
    cases hq : retadora.posicion_actual
    · refine ⟨rfl, ?_⟩
      exact ⟨_, findDesafio_updateDesafio db.desafios d.id d _ hfd rfl,
        rfl, rfl, rfl, hsw, hrk⟩
    · refine ⟨rfl, ?_⟩
      exact ⟨_, findDesafio_updateDesafio db.desafios d.id d _ hfd rfl,
        rfl, rfl, rfl, hsw, hrk⟩

/-- Witness for C9: the expired challenge of the position-less pair
`pNone` resolves to Jugado with no pair mutation and flags left false. -/
theorem forfeit_unknown_position_witness :
    (apply_forfeit_if_expired 10 50 dbC9).1.parejas = dbC9.parejas ∧
    ∃ d', findDesafio (apply_forfeit_if_expired 10 50 dbC9).1.desafios 104
        = some d'
      ∧ d'.estado = "Jugado"
      ∧ d'.ganador_pareja_id = some pNone.id
      ∧ d'.fecha_jugado = some 50
      ∧ d'.swap_aplicado = false
      ∧ d'.ranking_aplicado = false :=
  forfeit_unknown_position 10 50 dbC9 cxC9 pNone pM4 (by decide) (by decide)
    rfl rfl (by decide) (Or.inl rfl) rfl rfl

/-- C1 counterexample: the forfeit sweep applies a position swap to an
expired cross-division challenge that is NOT promotion-eligible (`pB5`,
ranked 5 in B, against `pA10` in A): positions 5 and 10 are exchanged and
`swap_aplicado` is set, where the claim says no swap happens. -/
theorem forfeit_sweep_counterexample :
    pB5.grupo ≠ pA10.grupo
      ∧ interdivision_allowed dbC1.parejas pB5 pA10 = false
      ∧ ((apply_forfeit_if_expired 10 50 dbC1).1.parejas.map
          Pareja.posicion_actual = [some 10, some 5])
      ∧ ((apply_forfeit_if_expired 10 50 dbC1).1.desafios.map
          Desafio.swap_aplicado = [true]) :=
  ⟨by decide, rfl, rfl, rfl⟩

/-- C1 amended: one sweep over a state whose only expired Pendiente
challenge is `d` (both pairs found, categories matching) transitions it to
Jugado with the challenger as winner and played-date set to the current
date; when both positions are known it always swaps and sets both flags —
a group+position swap when cross-division and promotion-eligible, and a
position-only swap otherwise (also in the cross-division non-eligible
case); when a position is unknown nothing is swapped and the flags are
unchanged; and any later sweep leaves the resolved row untouched (the swap
is applied exactly once). -/
theorem forfeit_sweep_amended (now today now2 today2 : Int) (db : DB)
    (d : Desafio) (retadora retada : Pareja)
    (hnd : (db.desafios.map Desafio.id).Nodup)
    (hfil : db.desafios.filter (isExpiredPending now) = [d])
    (hr : findPareja db.parejas d.retadora_pareja_id = some retadora)
    (hd : findPareja db.parejas d.retada_pareja_id = some retada)
    (hcat : same_category retadora retada = true)
    (hne : retadora.id ≠ retada.id) :
    ∃ d', findDesafio (apply_forfeit_if_expired now today db).1.desafios d.id
        = some d'
      ∧ d'.estado = "Jugado"
      ∧ d'.ganador_pareja_id = some retadora.id
      ∧ d'.fecha_jugado = some today
      ∧ (∀ pr pd, retadora.posicion_actual = some pr →
          retada.posicion_actual = some pd →
          d'.swap_aplicado = true ∧ d'.ranking_aplicado = true
          ∧ (retadora.grupo ≠ retada.grupo
              ∧ interdivision_allowed db.parejas retadora retada = true →
            findPareja (apply_forfeit_if_expired now today db).1.parejas
                retadora.id
              = some { retadora with grupo := retada.grupo, posicion_actual := some pd }
            ∧ findPareja (apply_forfeit_if_expired now today db).1.parejas
                retada.id
              = some { retada with grupo := retadora.grupo, posicion_actual := some pr })
          ∧ (¬ (retadora.grupo ≠ retada.grupo
              ∧ interdivision_allowed db.parejas retadora retada = true) →
            findPareja (apply_forfeit_if_expired now today db).1.parejas
                retadora.id
              = some { retadora with posicion_actual := some pd }
            ∧ findPareja (apply_forfeit_if_expired now today db).1.parejas
                retada.id
              = some { retada with posicion_actual := some pr }))
      ∧ ((retadora.posicion_actual = none ∨ retada.posicion_actual = none) →
          (apply_forfeit_if_expired now today db).1.parejas = db.parejas
          ∧ d'.swap_aplicado = d.swap_aplicado
          ∧ d'.ranking_aplicado = d.ranking_aplicado)
      ∧ findDesafio (apply_forfeit_if_expired now2 today2
            (apply_forfeit_if_expired now today db).1).1.desafios d.id
          = some d' := by
  have hstep : apply_forfeit_if_expired now today db
      = forfeit_step today (db, 0) d := by
    unfold apply_forfeit_if_expired
    rw [hfil]
    rfl
  have hdm : d ∈ db.desafios := by
    have hin : d ∈ db.desafios.filter (isExpiredPending now) := by
      rw [hfil]
      exact List.mem_cons_self _ _
    exact (List.mem_filter.mp hin).1
  have hfd : findDesafio db.desafios d.id = some d :=
    findDesafio_nodup_mem _ _ hnd hdm
  have hra : retadora.id = d.retadora_pareja_id := by
    simpa using List.find?_some hr
  have hrd : retada.id = d.retada_pareja_id := by
    simpa using List.find?_some hd
  have hr' : findPareja db.parejas retadora.id = some retadora := by
    rw [hra]; exact hr
  have hd' : findPareja db.parejas retada.id = some retada := by
    rw [hrd]; exact hd
  rw [hstep]
  unfold forfeit_step
  simp only [hr, hd, hcat]
  rw [if_neg (by decide)]
  cases hp : retadora.posicion_actual with
  | none =>
    cases hq : retada.posicion_actual with
    | none =>
        refine ⟨_, findDesafio_updateDesafio db.desafios d.id d _ hfd rfl,
          rfl, rfl, rfl, ?_, ?_, ?_⟩
        · intro pr pd hpr hpd
          cases hpr
        · intro _
          exact ⟨rfl, rfl, rfl⟩
        · refine sweep_preserves_row_at now2 today2 _ _ d.id ?_ ?_ ?_ rfl
          · show ((updateDesafio db.desafios _).map Desafio.id).Nodup
            rw [updateDesafio_map_id]
            exact hnd
          · exact List.mem_of_find?_eq_some
              (findDesafio_updateDesafio db.desafios d.id d _ hfd rfl)
          · exact (by decide : ("Jugado" : String) ≠ "Pendiente")
    | some pd0 =>
        refine ⟨_, findDesafio_updateDesafio db.desafios d.id d _ hfd rfl,
          rfl, rfl, rfl, ?_, ?_, ?_⟩
        · intro pr pd hpr hpd
          cases hpr
        · intro _
          exact ⟨rfl, rfl, rfl⟩
        · refine sweep_preserves_row_at now2 today2 _ _ d.id ?_ ?_ ?_ rfl
          · show ((updateDesafio db.desafios _).map Desafio.id).Nodup
            rw [updateDesafio_map_id]
            exact hnd
          · exact List.mem_of_find?_eq_some
              (findDesafio_updateDesafio db.desafios d.id d _ hfd rfl)
          · exact (by decide : ("Jugado" : String) ≠ "Pendiente")
  | some pr0 =>
    cases hq : retada.posicion_actual with
    | none =>
      refine ⟨_, findDesafio_updateDesafio db.desafios d.id d _ hfd rfl,
        rfl, rfl, rfl, ?_, ?_, ?_⟩
      · intro pr pd hpr hpd
        cases hpd
      · intro _
        exact ⟨rfl, rfl, rfl⟩
      · refine sweep_preserves_row_at now2 today2 _ _ d.id ?_ ?_ ?_ rfl
        · show ((updateDesafio db.desafios _).map Desafio.id).Nodup
          rw [updateDesafio_map_id]
          exact hnd
        · exact List.mem_of_find?_eq_some
            (findDesafio_updateDesafio db.desafios d.id d _ hfd rfl)
        · exact (by decide : ("Jugado" : String) ≠ "Pendiente")
    | some pd0 =>
      by_cases hx : retadora.grupo ≠ retada.grupo
          ∧ interdivision_allowed db.parejas retadora retada = true
      · have hx1 := hx.1
        have hx2 := hx.2
        simp only [hx2, and_true]
        rw [if_pos hx1]
        refine ⟨_, findDesafio_updateDesafio db.desafios d.id d _ hfd rfl,
          rfl, rfl, rfl, ?_, ?_, ?_⟩
        · intro pr pd hpr hpd
          obtain rfl := Option.some.inj hpr
          obtain rfl := Option.some.inj hpd
          refine ⟨rfl, rfl, fun _ => ⟨?_, ?_⟩, fun hcon => absurd hx1 hcon⟩
          · exact findPareja_updateParejas2_first db.parejas _ _
              retadora.id retadora hr' rfl
          · exact findPareja_updateParejas2_second db.parejas _ _
              retada.id retada hd' rfl hne
        · intro hnone
          rcases hnone with h | h <;> cases h
        · refine sweep_preserves_row_at now2 today2 _ _ d.id ?_ ?_ ?_ rfl
          · show ((updateDesafio db.desafios _).map Desafio.id).Nodup
            rw [updateDesafio_map_id]
            exact hnd
          · exact List.mem_of_find?_eq_some
              (findDesafio_updateDesafio db.desafios d.id d _ hfd rfl)
          · exact (by decide : ("Jugado" : String) ≠ "Pendiente")
      · simp only [hx, ite_false]
        refine ⟨_, findDesafio_updateDesafio db.desafios d.id d _ hfd rfl,
          rfl, rfl, rfl, ?_, ?_, ?_⟩
        · intro pr pd hpr hpd
          obtain rfl := Option.some.inj hpr
          obtain rfl := Option.some.inj hpd
          refine ⟨rfl, rfl, fun hcon => hcon.elim, fun _ => ⟨?_, ?_⟩⟩
          · exact findPareja_updateParejas2_first db.parejas _ _
              retadora.id retadora hr' rfl
          · exact findPareja_updateParejas2_second db.parejas _ _
              retada.id retada hd' rfl hne
        · intro hnone
          rcases hnone with h | h <;> cases h
        · refine sweep_preserves_row_at now2 today2 _ _ d.id ?_ ?_ ?_ rfl
          · show ((updateDesafio db.desafios _).map Desafio.id).Nodup
            rw [updateDesafio_map_id]
            exact hnd
          · exact List.mem_of_find?_eq_some
              (findDesafio_updateDesafio db.desafios d.id d _ hfd rfl)
          · exact (by decide : ("Jugado" : String) ≠ "Pendiente")

/-- Witness for C1 (amended): the expired same-group challenge
`cxForfeitSame` resolves with the challenger `pM5` winning and the
positions 4 and 5 swapped, once. -/
theorem forfeit_sweep_amended_witness :
    ∃ d', findDesafio (apply_forfeit_if_expired 10 50 dbForfeitSame).1.desafios
        101 = some d'
      ∧ d'.estado = "Jugado"
      ∧ d'.ganador_pareja_id = some pM5.id
      ∧ d'.fecha_jugado = some 50
      ∧ (∀ pr pd, pM5.posicion_actual = some pr →
          pM4.posicion_actual = some pd →
          d'.swap_aplicado = true ∧ d'.ranking_aplicado = true
          ∧ (pM5.grupo ≠ pM4.grupo
              ∧ interdivision_allowed dbForfeitSame.parejas pM5 pM4 = true →
            findPareja (apply_forfeit_if_expired 10 50 dbForfeitSame).1.parejas
                pM5.id
              = some { pM5 with grupo := pM4.grupo, posicion_actual := some pd }
            ∧ findPareja (apply_forfeit_if_expired 10 50 dbForfeitSame).1.parejas
                pM4.id
              = some { pM4 with grupo := pM5.grupo, posicion_actual := some pr })
          ∧ (¬ (pM5.grupo ≠ pM4.grupo
              ∧ interdivision_allowed dbForfeitSame.parejas pM5 pM4 = true) →
            findPareja (apply_forfeit_if_expired 10 50 dbForfeitSame).1.parejas
                pM5.id
              = some { pM5 with posicion_actual := some pd }
            ∧ findPareja (apply_forfeit_if_expired 10 50 dbForfeitSame).1.parejas
                pM4.id
              = some { pM4 with posicion_actual := some pr }))
      ∧ ((pM5.posicion_actual = none ∨ pM4.posicion_actual = none) →
          (apply_forfeit_if_expired 10 50 dbForfeitSame).1.parejas
            = dbForfeitSame.parejas
          ∧ d'.swap_aplicado = cxForfeitSame.swap_aplicado
          ∧ d'.ranking_aplicado = cxForfeitSame.ranking_aplicado)
      ∧ findDesafio (apply_forfeit_if_expired 20 60
            (apply_forfeit_if_expired 10 50 dbForfeitSame).1).1.desafios 101
          = some d' :=
  forfeit_sweep_amended 10 50 20 60 dbForfeitSame cxForfeitSame pM5 pM4
    (by decide) (by decide) rfl rfl (by decide) (by decide)

end RankingPadel
